import Mathlib

/-!
Shallow embedding of `pkg/parser/creators.go` from the
`lookhua/clickhouse-operator` repository, together with theorems about the
compiler `CreateCHIObjects` that turns a `ClickHouseInstallation` spec into
Kubernetes Services, ConfigMaps and StatefulSets.

Modelling conventions:
* Go slices are Lean lists; Go structs are Lean structures.
* Go maps that are only looked up are association lists (or `find?` over the
  building list, last writer wins, as for the template indices).
* Go maps that are *iterated* are association lists whose list order models
  the (unspecified) Go map iteration order; that order is therefore an
  explicit input of the embedding, so that order (in)dependence of the
  output can be stated.
* A Go `nil`-pointer dereference or out-of-range index (a panic) is `none`:
  functions that can panic return `Option`.
* The in-place mutation of the input installation performed by
  `createVolumeClaimTemplatesIndex` is modelled by returning the updated
  installation alongside the index (explicit state passing).
* The topology Walker and the six per-domain config generators are not part
  of this source slice; they are modelled from the spec as explicit inputs
  (`WalkerOutput`, `Collaborators`).
-/

/-! ## Data model: the Kubernetes object fragments used by creators.go -/

structure VolumeMount where
  name : String
  mountPath : String
  subPath : String := ""
deriving DecidableEq

structure ContainerPort where
  name : String
  containerPort : Nat
deriving DecidableEq

structure Container where
  name : String := ""
  image : String := ""
  ports : List ContainerPort := []
  volumeMounts : List VolumeMount := []
deriving DecidableEq

/-- A pod volume; `configMapName` is the name in the ConfigMap volume source
(`""` when the volume is not ConfigMap-sourced). -/
structure Volume where
  name : String
  configMapName : String := ""
deriving DecidableEq

structure ObjectMeta where
  name : String := ""
  nspace : String := ""
  labels : List (String × String) := []
deriving DecidableEq

structure ServicePort where
  name : String
  port : Nat
deriving DecidableEq

structure ServiceSpec where
  clusterIP : String := ""
  selector : List (String × String) := []
  ports : List ServicePort := []
  type : String := ""
deriving DecidableEq

structure Service where
  meta : ObjectMeta
  spec : ServiceSpec
deriving DecidableEq

structure ConfigMap where
  meta : ObjectMeta
  data : List (String × String)
deriving DecidableEq

/-- A PersistentVolumeClaim; `payload` stands for all claim fields other than
the name, which creators.go carries around untouched. -/
structure PersistentVolumeClaim where
  name : String
  payload : String := ""
deriving DecidableEq

structure PodSpec where
  volumes : List Volume := []
  containers : List Container := []
deriving DecidableEq

structure PodTemplateSpec where
  meta : ObjectMeta
  spec : PodSpec
deriving DecidableEq

structure LabelSelector where
  matchLabels : List (String × String)
deriving DecidableEq

structure StatefulSetSpec where
  replicas : Nat
  serviceName : String
  selector : LabelSelector
  template : PodTemplateSpec
  volumeClaimTemplates : List PersistentVolumeClaim := []
deriving DecidableEq

structure StatefulSet where
  meta : ObjectMeta
  spec : StatefulSetSpec
deriving DecidableEq

/-! ## Data model: the input ClickHouseInstallation custom resource -/

structure ChiVolumeClaimTemplate where
  name : String
  persistentVolumeClaim : PersistentVolumeClaim
deriving DecidableEq

structure ChiPodTemplate where
  name : String
  containers : List Container := []
  volumes : List Volume := []
deriving DecidableEq

structure ChiTemplates where
  podTemplates : List ChiPodTemplate := []
  volumeClaimTemplates : List ChiVolumeClaimTemplate := []
deriving DecidableEq

/-- The installation spec body.  `clusters` is opaque here: it is consumed
only by the external topology Walker, never by creators.go itself. -/
structure ChiSpec where
  clusters : List String := []
  templates : ChiTemplates := {}
deriving DecidableEq

structure ClickHouseInstallation where
  name : String := ""
  nspace : String := ""
  spec : ChiSpec := {}
deriving DecidableEq

/-- `ChiDeployment`: the pair of template names selected for one deployment
(the value type of the `ssDeployments` fingerprint map). -/
structure ChiDeployment where
  podTemplate : String := ""
  volumeClaimTemplate : String := ""
deriving DecidableEq

/-! ## Constants

Modelled from the spec: the constant declarations live outside this source
slice; their values are fixed by spec section 6 (filenames, naming patterns)
or are opaque fixed strings/numbers (labels, ports, image, paths). -/

/-- Modelled from the spec: fixed config filename for the remote-servers domain. -/
def filenameRemoteServersXML : String := "remote_servers.xml"

/-- Modelled from the spec: fixed config filename for the zookeeper domain. -/
def filenameZookeeperXML : String := "zookeeper.xml"

/-- Modelled from the spec: fixed config filename for the users domain. -/
def filenameUsersXML : String := "users.xml"

/-- Modelled from the spec: fixed config filename for the profiles domain. -/
def filenameProfilesXML : String := "profiles.xml"

/-- Modelled from the spec: fixed config filename for the quotas domain. -/
def filenameQuotasXML : String := "quotas.xml"

/-- Modelled from the spec: fixed config filename for the settings domain. -/
def filenameSettingsXML : String := "settings.xml"

/-- Modelled from the spec: fixed config filename for the per-replica macros document. -/
def filenameMacrosXML : String := "macros.xml"

/-- Modelled from the spec: the "generated by this system" object label key. -/
def ChopGeneratedLabel : String := "chop-generated"

/-- Modelled from the spec: the "owning installation" object label key. -/
def CHIGeneratedLabel : String := "clickhouse-installation"

/-- Modelled from the spec: the default app label key used in pod selectors. -/
def chDefaultAppLabel : String := "app"

/-- Modelled from the spec: fixed client RPC port name. -/
def chDefaultRPCPortName : String := "rpc"

/-- Modelled from the spec: fixed client RPC port number. -/
def chDefaultRPCPortNumber : Nat := 9000

/-- Modelled from the spec: fixed inter-server port name. -/
def chDefaultInterServerPortName : String := "interserver"

/-- Modelled from the spec: fixed inter-server port number. -/
def chDefaultInterServerPortNumber : Nat := 9009

/-- Modelled from the spec: fixed HTTP/REST port name. -/
def chDefaultRestPortName : String := "rest"

/-- Modelled from the spec: fixed HTTP/REST port number. -/
def chDefaultRestPortNumber : Nat := 8123

/-- Modelled from the spec: fixed default docker image of the synthesized container. -/
def chDefaultDockerImage : String := "yandex/clickhouse-server:latest"

/-- Modelled from the spec: the reserved "use default name" placeholder for
volume-claim template claim names. -/
def useDefaultNamePlaceholder : String := "USE_DEFAULT_NAME"

/-- Modelled from the spec: the fixed default data-volume name. -/
def chDefaultVolumeMountNameData : String := "clickhouse-data"

/-- Modelled from the spec: the fixed in-container data directory path. -/
def fullPathClickHouseData : String := "/var/lib/clickhouse"

/-- Modelled from the spec: the fixed cluster IP policy of per-replica Services. -/
def templateDefaultsServiceClusterIP : String := "None"

/-! ## Name/path formatters (creators.go lines 427-482)

The `fmt.Sprintf` pattern constants are declared outside this slice; their
values are modelled from the spec's fixed pattern table (section 6), and
`%s` substitution is string concatenation. -/

/-- `CreateConfigMapMacrosName`: pattern `chi-%s-deploy-confd-%s` applied to
(installation name, deployment id). -/
def CreateConfigMapMacrosName (chiName deploymentID : String) : String :=
  "chi-" ++ chiName ++ "-deploy-confd-" ++ deploymentID

/-- `CreateConfigMapCommonName`: pattern `chi-%s-common-configd`. -/
def CreateConfigMapCommonName (chiName : String) : String :=
  "chi-" ++ chiName ++ "-common-configd"

/-- `CreatePodServiceName`: pattern `chi-service-%s` applied to a deployment id. -/
def CreatePodServiceName (deploymentID : String) : String :=
  "chi-service-" ++ deploymentID

/-- `CreateChiServiceName`: pattern `chi-%s` applied to the installation name. -/
def CreateChiServiceName (chiName : String) : String :=
  "chi-" ++ chiName

/-- `CreateStatefulSetName`: pattern `chi-%s` applied to a deployment id. -/
def CreateStatefulSetName (deploymentID : String) : String :=
  "chi-" ++ deploymentID

/-- `CreatePodHostname`: pattern `chi-%s-0` applied to a deployment id. -/
def CreatePodHostname (deploymentID : String) : String :=
  "chi-" ++ deploymentID ++ "-0"

/-- `CreateNamespaceDomainName`: pattern `.%s.svc.cluster.local`. -/
def CreateNamespaceDomainName (chiNamespace : String) : String :=
  "." ++ chiNamespace ++ ".svc.cluster.local"

/-- `CreatePodFQDN`: pattern `chi-service-%s.%s.svc.cluster.local` applied to
(deployment id, namespace) - note the Go call passes the deployment id first. -/
def CreatePodFQDN (chiNamespace deploymentID : String) : String :=
  "chi-service-" ++ deploymentID ++ "." ++ chiNamespace ++ ".svc.cluster.local"

/-- `CreateClickHouseConfigFullPath`: fixed config directory plus filename. -/
def CreateClickHouseConfigFullPath (filename : String) : String :=
  "/etc/clickhouse-server/config.d/" ++ filename

/-! ## Intermediate state (`genOptions`) and external collaborators -/

/-- `genOptions` (the shared intermediate bag).  The two association lists
that creators.go iterates (`fullDeploymentIDToFingerprint`,
`commonConfigSections`) carry their Go map iteration order as list order;
`ssDeployments` and `macrosData` are only ever looked up. -/
structure genOptions where
  fullDeploymentIDToFingerprint : List (String × String) := []
  ssDeployments : List (String × ChiDeployment) := []
  macrosData : List (String × List String) := []
  commonConfigSections : List (String × String) := []

/-- Modelled from the spec: the output of the topology Walker (which runs
inside `generateRemoteServersConfig`, outside this source slice).  It fills
the three deployment-keyed maps of `genOptions`; the order of
`fullDeploymentIDToFingerprint` models the Go map iteration order. -/
structure WalkerOutput where
  fullDeploymentIDToFingerprint : List (String × String) := []
  ssDeployments : List (String × ChiDeployment) := []
  macrosData : List (String × List String) := []

/-- Modelled from the spec: the six per-domain shared-config generators and
the per-replica macros renderer are external collaborators, specified only
as functions of the installation spec. -/
structure Collaborators where
  generateRemoteServersConfig : ClickHouseInstallation → String
  generateZookeeperConfig : ClickHouseInstallation → String
  generateUsersConfig : ClickHouseInstallation → String
  generateProfilesConfig : ClickHouseInstallation → String
  generateQuotasConfig : ClickHouseInstallation → String
  generateSettingsConfig : ClickHouseInstallation → String
  generateHostMacros : String → String → List String → String

/-- Modelled from the spec: `includeNonEmpty` inserts a key/value pair into
the section map only when the value is non-empty. -/
def includeNonEmpty (m : List (String × String)) (key value : String) :
    List (String × String) :=
  if value = "" then m else m ++ [(key, value)]

/-- The six `includeNonEmpty` calls of `CreateCHIObjects` (lines 44-50), in
source order. -/
def buildCommonConfigSections (c : Collaborators) (chi : ClickHouseInstallation) :
    List (String × String) :=
  includeNonEmpty
    (includeNonEmpty
      (includeNonEmpty
        (includeNonEmpty
          (includeNonEmpty
            (includeNonEmpty []
              filenameRemoteServersXML (c.generateRemoteServersConfig chi))
            filenameZookeeperXML (c.generateZookeeperConfig chi))
          filenameUsersXML (c.generateUsersConfig chi))
        filenameProfilesXML (c.generateProfilesConfig chi))
      filenameQuotasXML (c.generateQuotasConfig chi))
    filenameSettingsXML (c.generateSettingsConfig chi)

/-! ## Template resolvers (creators.go lines 392-425) -/

/-- The value type of the volume-claim template index. -/
structure vcTemplatesIndexData where
  useDefaultName : Bool
  persistentVolumeClaim : PersistentVolumeClaim
deriving DecidableEq

/-- The value type of the pod template index. -/
structure podTemplatesIndexData where
  containers : List Container
  volumes : List Volume
deriving DecidableEq

/-- One iteration of the `createVolumeClaimTemplatesIndex` loop body: if the
claim is declared with the reserved placeholder name, rewrite the claim name
(in place, through the pointer into the installation) to the default
data-volume name and set the flag.  Returns the index entry together with
the (possibly updated) template. -/
def resolveVCTemplate (t : ChiVolumeClaimTemplate) :
    vcTemplatesIndexData × ChiVolumeClaimTemplate :=
  if t.persistentVolumeClaim.name = useDefaultNamePlaceholder then
    let t2 : ChiVolumeClaimTemplate :=
      { t with persistentVolumeClaim :=
          { t.persistentVolumeClaim with name := chDefaultVolumeMountNameData } }
    ({ useDefaultName := true, persistentVolumeClaim := t2.persistentVolumeClaim }, t2)
  else
    ({ useDefaultName := false, persistentVolumeClaim := t.persistentVolumeClaim }, t)

/-- `createVolumeClaimTemplatesIndex`.  The Go map is modelled as a lookup
function (last writer wins, hence `find?` over the reversed list); the
in-place mutation of the installation's volume-claim templates is returned
as an updated installation. -/
def createVolumeClaimTemplatesIndex (chi : ClickHouseInstallation) :
    (String → Option vcTemplatesIndexData) × ClickHouseInstallation :=
  let resolved := chi.spec.templates.volumeClaimTemplates.map resolveVCTemplate
  (fun templateName =>
      ((resolved.reverse.find? (fun p => p.2.name == templateName)).map (fun p => p.1)),
   { chi with spec :=
      { chi.spec with templates :=
        { chi.spec.templates with volumeClaimTemplates := resolved.map (fun p => p.2) } } })

/-- `createPodTemplatesIndex`.  The Go map is modelled as a lookup function
(last writer wins). -/
def createPodTemplatesIndex (chi : ClickHouseInstallation) :
    String → Option podTemplatesIndexData :=
  fun templateName =>
    ((chi.spec.templates.podTemplates.reverse.find? (fun t => t.name == templateName)).map
      (fun t => { containers := t.containers, volumes := t.volumes }))

/-! ## Small builders (creators.go lines 351-390) -/

/-- `createVolume`: a ConfigMap-sourced pod volume with the given name. -/
def createVolume (name : String) : Volume :=
  { name := name, configMapName := name }

/-- `createDefaultContainerTemplate`: the synthesized default container
(the unused `chi` parameter of the Go function is dropped). -/
def createDefaultContainerTemplate (name : String)
    (volumeMounts : List VolumeMount) : Container :=
  { name := name
    image := chDefaultDockerImage
    ports := [
      { name := chDefaultRPCPortName, containerPort := chDefaultRPCPortNumber },
      { name := chDefaultInterServerPortName,
        containerPort := chDefaultInterServerPortNumber },
      { name := chDefaultRestPortName, containerPort := chDefaultRestPortNumber }]
    volumeMounts := volumeMounts }

/-! ## Service builder (creators.go lines 119-185) -/

/-- The fixed three-port layout shared by both Service kinds. -/
def defaultServicePorts : List ServicePort :=
  [{ name := chDefaultRPCPortName, port := chDefaultRPCPortNumber },
   { name := chDefaultInterServerPortName, port := chDefaultInterServerPortNumber },
   { name := chDefaultRestPortName, port := chDefaultRestPortNumber }]

/-- The per-replica Service built for one deployment id. -/
def createPodService (chi : ClickHouseInstallation) (fullDeploymentID : String) :
    Service :=
  { meta :=
      { name := CreatePodServiceName fullDeploymentID
        nspace := chi.nspace
        labels := [(ChopGeneratedLabel, chi.name), (CHIGeneratedLabel, chi.name)] }
    spec :=
      { clusterIP := templateDefaultsServiceClusterIP
        selector := [(chDefaultAppLabel, CreateStatefulSetName fullDeploymentID)]
        ports := defaultServicePorts
        type := "ClusterIP" } }

/-- The installation-wide load-balanced Service. -/
def createChiService (chi : ClickHouseInstallation) : Service :=
  { meta :=
      { name := CreateChiServiceName chi.name
        nspace := chi.nspace
        labels := [(ChopGeneratedLabel, chi.name), (CHIGeneratedLabel, chi.name)] }
    spec :=
      { selector := [(CHIGeneratedLabel, chi.name)]
        ports := defaultServicePorts
        type := "LoadBalancer" } }

/-- `createServiceObjects`: the installation Service followed by one
per-replica Service per deployment id, in map iteration order. -/
def createServiceObjects (chi : ClickHouseInstallation) (options : genOptions) :
    List Service :=
  createChiService chi ::
    options.fullDeploymentIDToFingerprint.map (fun p => createPodService chi p.1)

/-! ## ConfigMap builder (creators.go lines 68-117) -/

/-- The shared ConfigMap holding `commonConfigSections`. -/
def createCommonConfigMap (chi : ClickHouseInstallation) (options : genOptions) :
    ConfigMap :=
  { meta :=
      { name := CreateConfigMapCommonName chi.name
        nspace := chi.nspace
        labels := [(ChopGeneratedLabel, chi.name), (CHIGeneratedLabel, chi.name)] }
    data := options.commonConfigSections }

/-- The private macros ConfigMap of one deployment.  A Go map lookup on a
slice-valued map yields the zero value (empty slice) on a miss, hence
`getD []`. -/
def createMacrosConfigMap (c : Collaborators) (chi : ClickHouseInstallation)
    (options : genOptions) (fullDeploymentID : String) : ConfigMap :=
  { meta :=
      { name := CreateConfigMapMacrosName chi.name fullDeploymentID
        nspace := chi.nspace
        labels := [(ChopGeneratedLabel, chi.name), (CHIGeneratedLabel, chi.name)] }
    data := [(filenameMacrosXML,
      c.generateHostMacros chi.name fullDeploymentID
        ((options.macrosData.lookup fullDeploymentID).getD []))] }

/-- `createConfigMapObjects`: the shared ConfigMap followed by one macros
ConfigMap per deployment id, in map iteration order. -/
def createConfigMapObjects (c : Collaborators) (chi : ClickHouseInstallation)
    (options : genOptions) : List ConfigMap :=
  createCommonConfigMap chi options ::
    options.fullDeploymentIDToFingerprint.map
      (fun p => createMacrosConfigMap c chi options p.1)

/-! ## StatefulSet builder (creators.go lines 187-349) -/

/-- Traverse a list of options: `none` exactly when some element is `none`
(a panic inside the per-deployment loop aborts the whole compile). -/
def collectSome {α : Type} : List (Option α) → Option (List α)
  | [] => some []
  | none :: _ => none
  | some a :: rest => (collectSome rest).map (fun l => a :: l)

/-- The shared volume mounts: one per common config section, mounted under
the fixed config directory, in section iteration order (lines 198-210). -/
def commonVolumeMountsOf (configMapCommonName : String)
    (commonConfigSections : List (String × String)) : List VolumeMount :=
  commonConfigSections.map (fun s =>
    { name := configMapCommonName
      mountPath := CreateClickHouseConfigFullPath s.1
      subPath := s.1 })

/-- The macros volume mount of one deployment (lines 230-234). -/
def macrosVolumeMount (configMapMacrosName : String) : VolumeMount :=
  { name := configMapMacrosName
    mountPath := CreateClickHouseConfigFullPath filenameMacrosXML
    subPath := filenameMacrosXML }

/-- The extra data-volume mount appended when the volume-claim template uses
the default name (lines 333-338). -/
def defaultDataVolumeMount : VolumeMount :=
  { name := chDefaultVolumeMountNameData, mountPath := fullPathClickHouseData }

/-- Lines 274-312: the pod spec contents before ConfigMap volumes and
volume-claim handling - either the deep-copied pod template with the current
mounts appended to every container, or the synthesized default container. -/
def podSpecForDeployment (podTemplatesIndex : String → Option podTemplatesIndexData)
    (statefulSetName : String) (currentVolumeMounts : List VolumeMount)
    (podTemplate : String) : PodSpec :=
  match podTemplatesIndex podTemplate with
  | some podTemplateData =>
    { volumes := podTemplateData.volumes
      containers := podTemplateData.containers.map (fun ct =>
        { ct with volumeMounts := ct.volumeMounts ++ currentVolumeMounts }) }
  | none =>
    { volumes := []
      containers := [createDefaultContainerTemplate statefulSetName currentVolumeMounts] }

/-- One iteration of the per-deployment loop (lines 215-345).  Returns
`none` on the two unguarded panic paths: the fingerprint missing from
`ssDeployments` (nil dereference, line 220) and `Containers[0]` on an empty
container list (line 333). -/
def buildStatefulSet (chi : ClickHouseInstallation)
    (configMapCommonName : String)
    (commonVolumeMounts : List VolumeMount)
    (volumeClaimTemplatesIndex : String → Option vcTemplatesIndexData)
    (podTemplatesIndex : String → Option podTemplatesIndexData)
    (ssDeployments : List (String × ChiDeployment))
    (p : String × String) : Option StatefulSet :=
  match ssDeployments.lookup p.2 with
  | none => none
  | some deployment =>
    let fullDeploymentID := p.1
    let statefulSetName := CreateStatefulSetName fullDeploymentID
    let serviceName := CreatePodServiceName fullDeploymentID
    let configMapMacrosName := CreateConfigMapMacrosName chi.name fullDeploymentID
    let currentVolumeMounts :=
      commonVolumeMounts ++ [macrosVolumeMount configMapMacrosName]
    let podSpecBase :=
      podSpecForDeployment podTemplatesIndex statefulSetName currentVolumeMounts
        deployment.podTemplate
    let podSpecWithVolumes : PodSpec :=
      { podSpecBase with volumes :=
          podSpecBase.volumes ++
            [createVolume configMapCommonName, createVolume configMapMacrosName] }
    let base : StatefulSet :=
      { meta :=
          { name := statefulSetName
            nspace := chi.nspace
            labels := [(ChopGeneratedLabel, chi.name), (CHIGeneratedLabel, chi.name)] }
        spec :=
          { replicas := 1
            serviceName := serviceName
            selector := { matchLabels := [(chDefaultAppLabel, statefulSetName)] }
            template :=
              { meta :=
                  { name := statefulSetName
                    labels := [(chDefaultAppLabel, statefulSetName),
                               (ChopGeneratedLabel, chi.name),
                               (CHIGeneratedLabel, chi.name)] }
                spec := podSpecWithVolumes }
            volumeClaimTemplates := [] } }
    match volumeClaimTemplatesIndex deployment.volumeClaimTemplate with
    | none => some base
    | some volumeClaimTemplateData =>
      let withClaim : StatefulSet :=
        { base with spec :=
            { base.spec with volumeClaimTemplates :=
                [volumeClaimTemplateData.persistentVolumeClaim] } }
      if volumeClaimTemplateData.useDefaultName then
        match withClaim.spec.template.spec.containers with
        | [] => none
        | c0 :: rest =>
          some { withClaim with spec :=
              { withClaim.spec with template :=
                { withClaim.spec.template with spec :=
                  { withClaim.spec.template.spec with containers :=
                      { c0 with volumeMounts :=
                          c0.volumeMounts ++ [defaultDataVolumeMount] } :: rest } } } }
      else some withClaim

/-- `createStatefulSetObjects`: builds both template indices (mutating the
installation's volume-claim templates in place), the shared mounts, and one
StatefulSet per deployment id in map iteration order.  Returns the possibly
panicking list together with the updated installation. -/
def createStatefulSetObjects (chi : ClickHouseInstallation) (options : genOptions) :
    Option (List StatefulSet) × ClickHouseInstallation :=
  let configMapCommonName := CreateConfigMapCommonName chi.name
  let vcIndexAndChi := createVolumeClaimTemplatesIndex chi
  let volumeClaimTemplatesIndex := vcIndexAndChi.1
  let chi2 := vcIndexAndChi.2
  let podTemplatesIndex := createPodTemplatesIndex chi2
  let commonVolumeMounts :=
    commonVolumeMountsOf configMapCommonName options.commonConfigSections
  (collectSome (options.fullDeploymentIDToFingerprint.map
      (buildStatefulSet chi configMapCommonName commonVolumeMounts
        volumeClaimTemplatesIndex podTemplatesIndex options.ssDeployments)),
   chi2)

/-! ## Top-level compiler (creators.go lines 28-66) -/

/-- The aggregated output map. -/
structure ObjectsMap where
  services : List Service
  configMaps : List ConfigMap
  statefulSets : List StatefulSet
deriving DecidableEq

/-- `CreateCHIObjects`.  The Walker output `w` (filled by the out-of-slice
`generateRemoteServersConfig`) and the generator collaborators `c` are
explicit inputs; the `deploymentCountMax` argument of the Go function only
pre-sizes slices and is dropped.  Returns the object map, the deployment id
slice and the (possibly mutated) installation, or `none` when the
StatefulSet builder panics. -/
def CreateCHIObjects (c : Collaborators) (chi : ClickHouseInstallation)
    (w : WalkerOutput) : Option (ObjectsMap × List String × ClickHouseInstallation) :=
  let options : genOptions :=
    { fullDeploymentIDToFingerprint := w.fullDeploymentIDToFingerprint
      ssDeployments := w.ssDeployments
      macrosData := w.macrosData
      commonConfigSections := buildCommonConfigSections c chi }
  let fullDeploymentIDs := options.fullDeploymentIDToFingerprint.map (fun p => p.1)
  let services := createServiceObjects chi options
  let configMaps := createConfigMapObjects c chi options
  match createStatefulSetObjects chi options with
  | (none, _) => none
  | (some statefulSets, chi2) =>
    some ({ services := services, configMaps := configMaps,
            statefulSets := statefulSets },
          fullDeploymentIDs, chi2)

/-! ## Result accessors (used to state claims without destructuring) -/

/-- The Services of a compile result (empty on panic). -/
def resultServices (r : Option (ObjectsMap × List String × ClickHouseInstallation)) :
    List Service :=
  (r.map (fun x => x.1.services)).getD []

/-- The ConfigMaps of a compile result (empty on panic). -/
def resultConfigMaps (r : Option (ObjectsMap × List String × ClickHouseInstallation)) :
    List ConfigMap :=
  (r.map (fun x => x.1.configMaps)).getD []

/-- The StatefulSets of a compile result (empty on panic). -/
def resultStatefulSets (r : Option (ObjectsMap × List String × ClickHouseInstallation)) :
    List StatefulSet :=
  (r.map (fun x => x.1.statefulSets)).getD []

/-- The deployment id slice of a compile result. -/
def resultIDs (r : Option (ObjectsMap × List String × ClickHouseInstallation)) :
    Option (List String) :=
  r.map (fun x => x.2.1)

/-- The installation as left behind by a compile. -/
def resultChi (r : Option (ObjectsMap × List String × ClickHouseInstallation)) :
    Option ClickHouseInstallation :=
  r.map (fun x => x.2.2)

/-! ## Concrete fixtures used by witnesses and counterexamples -/

/-- Collaborators whose generators all return the empty string and whose
macros renderer returns a fixed non-empty document. -/
def emptyCollaborators : Collaborators :=
  { generateRemoteServersConfig := fun _ => ""
    generateZookeeperConfig := fun _ => ""
    generateUsersConfig := fun _ => ""
    generateProfilesConfig := fun _ => ""
    generateQuotasConfig := fun _ => ""
    generateSettingsConfig := fun _ => ""
    generateHostMacros := fun chiName id _ => "macros " ++ chiName ++ " " ++ id }

/-- Collaborators with a mix of empty and non-empty generator outputs. -/
def mixedCollaborators : Collaborators :=
  { generateRemoteServersConfig := fun _ => "remote-servers-config"
    generateZookeeperConfig := fun _ => ""
    generateUsersConfig := fun _ => "users-config"
    generateProfilesConfig := fun _ => ""
    generateQuotasConfig := fun _ => ""
    generateSettingsConfig := fun _ => "settings-config"
    generateHostMacros := fun chiName id _ => "macros " ++ chiName ++ " " ++ id }

/-- A minimal installation with no templates. -/
def testChi : ClickHouseInstallation :=
  { name := "chi1", nspace := "ns1" }

/-- An installation with a pod template and two volume-claim templates, one
declared with the reserved placeholder name. -/
def templChi : ClickHouseInstallation :=
  { name := "chi1"
    nspace := "ns1"
    spec :=
      { clusters := ["cluster1"]
        templates :=
          { podTemplates :=
              [{ name := "pt1"
                 containers :=
                   [{ name := "app1", image := "img1"
                      volumeMounts := [{ name := "v1", mountPath := "/d1" }] },
                    { name := "app2", image := "img2" }]
                 volumes := [{ name := "v1" }] }]
            volumeClaimTemplates :=
              [{ name := "vct1"
                 persistentVolumeClaim :=
                   { name := useDefaultNamePlaceholder, payload := "5Gi" } },
               { name := "vct2"
                 persistentVolumeClaim := { name := "claim2", payload := "1Gi" } }] } } }

/-- Walker output: two deployments with fingerprints that resolve to the
deployment with no templates. -/
def twoDeployments : WalkerOutput :=
  { fullDeploymentIDToFingerprint := [("dep-a", "fpa"), ("dep-b", "fpb")]
    ssDeployments := [("fpa", {}), ("fpb", {})]
    macrosData := [("dep-a", ["shard1"]), ("dep-b", ["shard2"])] }

/-- The same walker output with the deployment-identifier map iterated in
the opposite order. -/
def twoDeploymentsSwapped : WalkerOutput :=
  { fullDeploymentIDToFingerprint := [("dep-b", "fpb"), ("dep-a", "fpa")]
    ssDeployments := [("fpa", {}), ("fpb", {})]
    macrosData := [("dep-a", ["shard1"]), ("dep-b", ["shard2"])] }

/-- Walker output whose single deployment's fingerprint has no entry in the
deployment resolver map. -/
def missingFingerprint : WalkerOutput :=
  { fullDeploymentIDToFingerprint := [("dep-a", "fp-missing")]
    ssDeployments := []
    macrosData := [] }

/-- Walker output with one deployment selecting the pod template `pt1` and
the placeholder-named volume-claim template `vct1` of `templChi`. -/
def templDeployment : WalkerOutput :=
  { fullDeploymentIDToFingerprint := [("dep-a", "fp1")]
    ssDeployments :=
      [("fp1", { podTemplate := "pt1", volumeClaimTemplate := "vct1" })]
    macrosData := [("dep-a", ["shard1"])] }

/-- Walker output with one deployment selecting no pod template (miss) and
the placeholder-named volume-claim template `vct1` of `templChi`. -/
def defaultPodWithClaim : WalkerOutput :=
  { fullDeploymentIDToFingerprint := [("dep-a", "fp1")]
    ssDeployments :=
      [("fp1", { podTemplate := "", volumeClaimTemplate := "vct1" })]
    macrosData := [("dep-a", ["shard1"])] }

/-! ## Characterization of `CreateCHIObjects` -/

/-- The `genOptions` value assembled by `CreateCHIObjects`. -/
def compiledOptions (c : Collaborators) (chi : ClickHouseInstallation)
    (w : WalkerOutput) : genOptions :=
  { fullDeploymentIDToFingerprint := w.fullDeploymentIDToFingerprint
    ssDeployments := w.ssDeployments
    macrosData := w.macrosData
    commonConfigSections := buildCommonConfigSections c chi }

/-- The per-deployment StatefulSet builder with the shared arguments of one
compile filled in. -/
def buildStatefulSetFn (c : Collaborators) (chi : ClickHouseInstallation)
    (w : WalkerOutput) : String × String → Option StatefulSet :=
  buildStatefulSet chi (CreateConfigMapCommonName chi.name)
    (commonVolumeMountsOf (CreateConfigMapCommonName chi.name)
      (buildCommonConfigSections c chi))
    (createVolumeClaimTemplatesIndex chi).1
    (createPodTemplatesIndex (createVolumeClaimTemplatesIndex chi).2)
    w.ssDeployments

/-- The installation after the placeholder claim names have been rewritten
in place. -/
def resolveInstallation (chi : ClickHouseInstallation) : ClickHouseInstallation :=
  { chi with spec :=
    { chi.spec with templates :=
      { chi.spec.templates with volumeClaimTemplates :=
          (chi.spec.templates.volumeClaimTemplates.map (fun t => (resolveVCTemplate t).2)) } } }

/-! ## Totality guard for the StatefulSet builder -/

/-- The guard under which one deployment's StatefulSet build cannot panic:
its fingerprint resolves in `ssDeployments`, and - when its volume-claim
template resolves with the `useDefaultName` flag - a found pod template has
at least one container (the synthesized default container always exists). -/
def deploymentSafe (chi : ClickHouseInstallation)
    (ssDeployments : List (String × ChiDeployment)) (p : String × String) : Bool :=
  match ssDeployments.lookup p.2 with
  | none => false
  | some dep =>
    match (createVolumeClaimTemplatesIndex chi).1 dep.volumeClaimTemplate with
    | none => true
    | some v =>
      if v.useDefaultName then
        match createPodTemplatesIndex (createVolumeClaimTemplatesIndex chi).2 dep.podTemplate with
        | none => true
        | some ptd => !ptd.containers.isEmpty
      else true

/-- An empty walker output (zero deployments). -/
def emptyWalker : WalkerOutput := {}

/-- The six shared configuration domains. -/
inductive ConfigDomain : Type
  | remoteServers
  | zookeeper
  | users
  | profiles
  | quotas
  | settings
deriving DecidableEq, Fintype

/-- The fixed filename of each shared configuration domain. -/
def domainFilename : ConfigDomain → String
  | .remoteServers => filenameRemoteServersXML
  | .zookeeper => filenameZookeeperXML
  | .users => filenameUsersXML
  | .profiles => filenameProfilesXML
  | .quotas => filenameQuotasXML
  | .settings => filenameSettingsXML

/-- The output of each domain's generator for a given installation. -/
def generatorOutput (c : Collaborators) (chi : ClickHouseInstallation) :
    ConfigDomain → String
  | .remoteServers => c.generateRemoteServersConfig chi
  | .zookeeper => c.generateZookeeperConfig chi
  | .users => c.generateUsersConfig chi
  | .profiles => c.generateProfilesConfig chi
  | .quotas => c.generateQuotasConfig chi
  | .settings => c.generateSettingsConfig chi

/-! ## Per-deployment access to the emitted StatefulSets -/

/-- The per-deployment mount list (common mounts followed by the macros
mount) of one compile. -/
def currentVolumeMountsOf (c : Collaborators) (chi : ClickHouseInstallation)
    (id : String) : List VolumeMount :=
  commonVolumeMountsOf (CreateConfigMapCommonName chi.name)
      (buildCommonConfigSections c chi) ++
    [macrosVolumeMount (CreateConfigMapMacrosName chi.name id)]

/-- Append the default data-volume mount to the first container only. -/
def appendDataMountToFirst : List Container → List Container
  | [] => []
  | c0 :: rest =>
    { c0 with volumeMounts := c0.volumeMounts ++ [defaultDataVolumeMount] } :: rest

/-- Walker output with one deployment selecting no pod template (miss) and
the explicitly named volume-claim template `vct2` of `templChi`. -/
def defaultPodNoFlag : WalkerOutput :=
  { fullDeploymentIDToFingerprint := [("dep-a", "fp1")]
    ssDeployments :=
      [("fp1", { podTemplate := "", volumeClaimTemplate := "vct2" })]
    macrosData := [("dep-a", ["shard1"])] }

/-- Walker output with one deployment selecting the pod template `pt1` and
the explicitly named volume-claim template `vct2` of `templChi`. -/
def templPodNoFlag : WalkerOutput :=
  { fullDeploymentIDToFingerprint := [("dep-a", "fp1")]
    ssDeployments :=
      [("fp1", { podTemplate := "pt1", volumeClaimTemplate := "vct2" })]
    macrosData := [("dep-a", ["shard1"])] }

/-! ## Theorems -/
/-! ## Generic helper lemmas -/

theorem collectSome_map_some {α : Type} (r : List α) :
    collectSome (r.map some) = some r := by
  induction r with
  | nil => rfl
  | cons a rest ih => simp [collectSome, ih]

theorem collectSome_eq_some {α : Type} {l : List (Option α)} {r : List α}
    (h : collectSome l = some r) : l = r.map some := by
  induction l generalizing r with
  | nil =>
    rw [collectSome] at h
    cases h
    rfl
  | cons o rest ih =>
    cases o with
    | none => rw [collectSome] at h; cases h
    | some a =>
      rw [collectSome] at h
      cases hrest : collectSome rest with
      | none => rw [hrest] at h; cases h
      | some rr =>
        rw [hrest] at h
        cases h
        simp [ih hrest]

theorem collectSome_isSome {α : Type} {l : List (Option α)}
    (h : ∀ o ∈ l, o.isSome = true) : (collectSome l).isSome = true := by
  induction l with
  | nil => simp [collectSome]
  | cons o rest ih =>
    cases o with
    | none => exact absurd (h none (by simp)) (by simp)
    | some a =>
      have := ih (fun o ho => h o (by simp [ho]))
      cases hr : collectSome rest with
      | none => rw [hr] at this; simp at this
      | some r => simp [collectSome, hr]

/-- Pointwise description of a successful traversal over a mapped list:
any projection of the results equals the matching projection of the inputs. -/
theorem collectSome_map_proj {α β γ : Type} {f : α → Option β} {nm : β → γ}
    {g : α → γ} (hfg : ∀ p s, f p = some s → nm s = g p) :
    ∀ {l : List α} {r : List β},
      collectSome (l.map f) = some r → r.map nm = l.map g := by
  intro l
  induction l with
  | nil => intro r h; simp [collectSome] at h; simp [← h]
  | cons p rest ih =>
    intro r h
    rw [List.map_cons] at h
    cases hfp : f p with
    | none => rw [hfp] at h; simp [collectSome] at h
    | some s =>
      rw [hfp] at h
      cases hrest : collectSome (rest.map f) with
      | none => rw [collectSome, hrest] at h; simp at h
      | some rr =>
        rw [collectSome, hrest] at h
        simp at h
        rw [← h]
        simp [hfg p s hfp, ih hrest]

/-! ## Name disequality and injectivity lemmas -/

theorem string_append_left_cancel {a b c : String} (h : a ++ b = a ++ c) : b = c := by
  apply String.ext
  have h2 := congrArg String.data h
  simp only [String.data_append] at h2
  exact List.append_cancel_left h2

theorem CreateStatefulSetName_inj {a b : String}
    (h : CreateStatefulSetName a = CreateStatefulSetName b) : a = b :=
  string_append_left_cancel h

theorem CreatePodServiceName_inj {a b : String}
    (h : CreatePodServiceName a = CreatePodServiceName b) : a = b :=
  string_append_left_cancel h

theorem CreateConfigMapMacrosName_inj {n a b : String}
    (h : CreateConfigMapMacrosName n a = CreateConfigMapMacrosName n b) : a = b := by
  apply String.ext
  have h2 := congrArg String.data h
  simp only [CreateConfigMapMacrosName, String.data_append, List.append_assoc] at h2
  exact List.append_cancel_left (List.append_cancel_left (List.append_cancel_left h2))

theorem macrosName_ne_commonName (n d : String) :
    CreateConfigMapMacrosName n d ≠ CreateConfigMapCommonName n := by
  intro h
  have h2 := congrArg String.data h
  simp only [CreateConfigMapMacrosName, CreateConfigMapCommonName, String.data_append,
    List.append_assoc] at h2
  have h3 := List.append_cancel_left (List.append_cancel_left h2)
  rw [List.cons_append] at h3
  injection h3 with hh ht
  rw [List.cons_append] at ht
  injection ht with hd _
  exact absurd hd (by decide)

theorem createVolumeClaimTemplatesIndex_snd (chi : ClickHouseInstallation) :
    (createVolumeClaimTemplatesIndex chi).2 = resolveInstallation chi := by
  simp [createVolumeClaimTemplatesIndex, resolveInstallation, List.map_map, Function.comp]

theorem CreateCHIObjects_eq (c : Collaborators) (chi : ClickHouseInstallation)
    (w : WalkerOutput) :
    CreateCHIObjects c chi w =
      (collectSome (w.fullDeploymentIDToFingerprint.map (buildStatefulSetFn c chi w))).map
        (fun l =>
          ({ services := createServiceObjects chi (compiledOptions c chi w)
             configMaps := createConfigMapObjects c chi (compiledOptions c chi w)
             statefulSets := l },
           w.fullDeploymentIDToFingerprint.map (fun p => p.1),
           resolveInstallation chi)) := by
  have h1 : createStatefulSetObjects chi (compiledOptions c chi w) =
      (collectSome (w.fullDeploymentIDToFingerprint.map (buildStatefulSetFn c chi w)),
       (createVolumeClaimTemplatesIndex chi).2) := rfl
  have h0 : CreateCHIObjects c chi w =
      (match createStatefulSetObjects chi (compiledOptions c chi w) with
       | (none, _) => none
       | (some statefulSets, chi2) =>
         some ({ services := createServiceObjects chi (compiledOptions c chi w)
                 configMaps := createConfigMapObjects c chi (compiledOptions c chi w)
                 statefulSets := statefulSets },
               w.fullDeploymentIDToFingerprint.map (fun p => p.1), chi2)) := rfl
  rw [h0, h1, createVolumeClaimTemplatesIndex_snd]
  cases collectSome (w.fullDeploymentIDToFingerprint.map (buildStatefulSetFn c chi w)) with
  | none => rfl
  | some l => rfl

/-! ## Accessor lemmas for successful compiles -/

theorem resultIDs_of_isSome (c : Collaborators) (chi : ClickHouseInstallation)
    (w : WalkerOutput) (hs : (CreateCHIObjects c chi w).isSome = true) :
    resultIDs (CreateCHIObjects c chi w) =
      some (w.fullDeploymentIDToFingerprint.map (fun p => p.1)) := by
  rw [CreateCHIObjects_eq] at hs ⊢
  cases h : collectSome (w.fullDeploymentIDToFingerprint.map (buildStatefulSetFn c chi w)) with
  | none => rw [h] at hs; simp at hs
  | some l => rfl

theorem resultServices_of_isSome (c : Collaborators) (chi : ClickHouseInstallation)
    (w : WalkerOutput) (hs : (CreateCHIObjects c chi w).isSome = true) :
    resultServices (CreateCHIObjects c chi w) =
      createServiceObjects chi (compiledOptions c chi w) := by
  rw [CreateCHIObjects_eq] at hs ⊢
  cases h : collectSome (w.fullDeploymentIDToFingerprint.map (buildStatefulSetFn c chi w)) with
  | none => rw [h] at hs; simp at hs
  | some l => rfl

theorem resultConfigMaps_of_isSome (c : Collaborators) (chi : ClickHouseInstallation)
    (w : WalkerOutput) (hs : (CreateCHIObjects c chi w).isSome = true) :
    resultConfigMaps (CreateCHIObjects c chi w) =
      createConfigMapObjects c chi (compiledOptions c chi w) := by
  rw [CreateCHIObjects_eq] at hs ⊢
  cases h : collectSome (w.fullDeploymentIDToFingerprint.map (buildStatefulSetFn c chi w)) with
  | none => rw [h] at hs; simp at hs
  | some l => rfl

theorem resultChi_of_isSome (c : Collaborators) (chi : ClickHouseInstallation)
    (w : WalkerOutput) (hs : (CreateCHIObjects c chi w).isSome = true) :
    resultChi (CreateCHIObjects c chi w) = some (resolveInstallation chi) := by
  rw [CreateCHIObjects_eq] at hs ⊢
  cases h : collectSome (w.fullDeploymentIDToFingerprint.map (buildStatefulSetFn c chi w)) with
  | none => rw [h] at hs; simp at hs
  | some l => rfl

theorem resultStatefulSets_of_isSome (c : Collaborators) (chi : ClickHouseInstallation)
    (w : WalkerOutput) (hs : (CreateCHIObjects c chi w).isSome = true) :
    w.fullDeploymentIDToFingerprint.map (buildStatefulSetFn c chi w) =
      (resultStatefulSets (CreateCHIObjects c chi w)).map some := by
  rw [CreateCHIObjects_eq] at hs ⊢
  cases h : collectSome (w.fullDeploymentIDToFingerprint.map (buildStatefulSetFn c chi w)) with
  | none => rw [h] at hs; simp at hs
  | some l =>
    have := collectSome_eq_some h
    simpa [resultStatefulSets] using this

theorem buildStatefulSetFn_isSome (c : Collaborators) (chi : ClickHouseInstallation)
    (w : WalkerOutput) (p : String × String)
    (h : deploymentSafe chi w.ssDeployments p = true) :
    (buildStatefulSetFn c chi w p).isSome = true := by
  unfold deploymentSafe at h
  cases hl : w.ssDeployments.lookup p.2 with
  | none => simp [hl] at h
  | some dep =>
    simp only [hl] at h
    cases hv : (createVolumeClaimTemplatesIndex chi).1 dep.volumeClaimTemplate with
    | none =>
      simp [buildStatefulSetFn, buildStatefulSet, hl, hv]
    | some v =>
      simp only [hv] at h
      cases hflag : v.useDefaultName with
      | false =>
        simp [buildStatefulSetFn, buildStatefulSet, hl, hv, hflag]
      | true =>
        simp only [hflag, if_true] at h
        cases hpt : createPodTemplatesIndex (createVolumeClaimTemplatesIndex chi).2
            dep.podTemplate with
        | none =>
          simp [buildStatefulSetFn, buildStatefulSet, podSpecForDeployment,
            hl, hv, hflag, hpt]
        | some ptd =>
          simp only [hpt] at h
          cases hcs : ptd.containers with
          | nil => simp [hcs] at h
          | cons c0 rest =>
            simp [buildStatefulSetFn, buildStatefulSet, podSpecForDeployment,
              hl, hv, hflag, hpt, hcs]

/-! ## Claim C9 -/

/-- C9: the name formatters are pure functions matching the fixed pattern
table byte for byte; in particular `CreatePodFQDN "my-ns" "ss-1eb454-2-0"`
and `CreateConfigMapMacrosName "chi1" "ss-1eb454-2-0"` produce exactly the
expected strings, and on all inputs each formatter is exactly its section-6
pattern. -/
theorem claim_C9_name_formatters :
    CreatePodFQDN "my-ns" "ss-1eb454-2-0" =
        "chi-service-ss-1eb454-2-0.my-ns.svc.cluster.local" ∧
    CreateConfigMapMacrosName "chi1" "ss-1eb454-2-0" =
        "chi-chi1-deploy-confd-ss-1eb454-2-0" ∧
    (∀ i n d : String,
      CreateConfigMapCommonName i = "chi-" ++ i ++ "-common-configd" ∧
      CreateConfigMapMacrosName i d = "chi-" ++ i ++ "-deploy-confd-" ++ d ∧
      CreateChiServiceName i = "chi-" ++ i ∧
      CreatePodServiceName d = "chi-service-" ++ d ∧
      CreateStatefulSetName d = "chi-" ++ d ∧
      CreatePodHostname d = "chi-" ++ d ++ "-0" ∧
      CreateNamespaceDomainName n = "." ++ n ++ ".svc.cluster.local" ∧
      CreatePodFQDN n d = "chi-service-" ++ d ++ "." ++ n ++ ".svc.cluster.local") := by
  refine ⟨by decide, by decide, fun i n d => ?_⟩
  exact ⟨rfl, rfl, rfl, rfl, rfl, rfl, rfl, rfl⟩

/-! ## Claim C2 -/

/-- C2 (refuted as stated; the defect predicted by spec section 9): the two
walker outputs below carry the same deployment-identifier map - their
association lists are permutations of each other and all lookups agree -
yet compiling `testChi` with the two iteration orders yields differently
ordered deployment-id, Service, ConfigMap and StatefulSet lists, so the
output is *not* invariant under the map iteration order: the code iterates
the Go map directly without sorting. -/
theorem claim_C2_iteration_order_leaks :
    (twoDeployments.fullDeploymentIDToFingerprint.Perm
        twoDeploymentsSwapped.fullDeploymentIDToFingerprint) ∧
    twoDeployments.ssDeployments = twoDeploymentsSwapped.ssDeployments ∧
    twoDeployments.macrosData = twoDeploymentsSwapped.macrosData ∧
    resultIDs (CreateCHIObjects emptyCollaborators testChi twoDeployments) ≠
      resultIDs (CreateCHIObjects emptyCollaborators testChi twoDeploymentsSwapped) ∧
    resultServices (CreateCHIObjects emptyCollaborators testChi twoDeployments) ≠
      resultServices (CreateCHIObjects emptyCollaborators testChi twoDeploymentsSwapped) ∧
    resultConfigMaps (CreateCHIObjects emptyCollaborators testChi twoDeployments) ≠
      resultConfigMaps (CreateCHIObjects emptyCollaborators testChi twoDeploymentsSwapped) ∧
    resultStatefulSets (CreateCHIObjects emptyCollaborators testChi twoDeployments) ≠
      resultStatefulSets (CreateCHIObjects emptyCollaborators testChi twoDeploymentsSwapped) := by
  refine ⟨List.Perm.swap _ _ _, rfl, rfl, by decide, by decide, by decide, by decide⟩

/-! ## Claim C3 -/

/-- C3 (refutation of the claim as stated): a deployment whose fingerprint
is absent from the `ssDeployments` resolver map is *not* handled by an
existence check - the Go code dereferences the nil map entry
(creators.go line 220) - so `CreateCHIObjects` panics (`none`) on this
input instead of being total. -/
theorem claim_C3_counterexample :
    CreateCHIObjects emptyCollaborators testChi missingFingerprint = none := by
  decide

/-- C3 (amended): pod-template and volume-claim-template lookup misses are
handled by existence checks with fallback paths, but the fingerprint
resolver lookup and the first-container access are unguarded;
`CreateCHIObjects` is total on every input whose deployments all satisfy
`deploymentSafe` (fingerprint resolvable, and a found pod template is
non-empty when the default data mount must be appended). -/
theorem claim_C3_total_when_safe (c : Collaborators) (chi : ClickHouseInstallation)
    (w : WalkerOutput)
    (hsafe : ∀ p ∈ w.fullDeploymentIDToFingerprint,
      deploymentSafe chi w.ssDeployments p = true) :
    (CreateCHIObjects c chi w).isSome = true := by
  have hc : (collectSome (w.fullDeploymentIDToFingerprint.map
      (buildStatefulSetFn c chi w))).isSome = true := by
    apply collectSome_isSome
    intro o ho
    simp only [List.mem_map] at ho
    obtain ⟨p, hp, rfl⟩ := ho
    exact buildStatefulSetFn_isSome c chi w p (hsafe p hp)
  rw [CreateCHIObjects_eq]
  cases h : collectSome (w.fullDeploymentIDToFingerprint.map (buildStatefulSetFn c chi w)) with
  | none => rw [h] at hc; simp at hc
  | some l => rfl

/-- Witness for C3 (amended) at a concrete input with two resolvable
deployments. -/
theorem claim_C3_total_when_safe_witness :
    (∀ p ∈ twoDeployments.fullDeploymentIDToFingerprint,
      deploymentSafe testChi twoDeployments.ssDeployments p = true) ∧
    (CreateCHIObjects emptyCollaborators testChi twoDeployments).isSome = true :=
  ⟨by decide, claim_C3_total_when_safe emptyCollaborators testChi twoDeployments (by decide)⟩

/-! ## Claim C4 -/

/-- C4 (refutation of the claim as stated): compiling `templChi`, whose
first volume-claim template is declared with the reserved placeholder name,
does *not* leave the input installation unchanged - the claim name is
rewritten in place (creators.go line 401). -/
theorem claim_C4_counterexample :
    resultChi (CreateCHIObjects emptyCollaborators templChi emptyWalker) ≠
      some templChi := by
  decide

/-- C4 (amended): a compile leaves every field of the installation unchanged
*except* the claim names of volume-claim templates declared with the
reserved placeholder, which are rewritten in place to the fixed default
data-volume name; in particular an installation with no placeholder-named
claim is returned unchanged. -/
theorem claim_C4_frame (c : Collaborators) (chi : ClickHouseInstallation)
    (w : WalkerOutput) (hs : (CreateCHIObjects c chi w).isSome = true) :
    resultChi (CreateCHIObjects c chi w) = some (resolveInstallation chi) ∧
    (resolveInstallation chi).name = chi.name ∧
    (resolveInstallation chi).nspace = chi.nspace ∧
    (resolveInstallation chi).spec.clusters = chi.spec.clusters ∧
    (resolveInstallation chi).spec.templates.podTemplates =
      chi.spec.templates.podTemplates ∧
    ((∀ t ∈ chi.spec.templates.volumeClaimTemplates,
        t.persistentVolumeClaim.name ≠ useDefaultNamePlaceholder) →
      resolveInstallation chi = chi) := by
  refine ⟨resultChi_of_isSome c chi w hs, rfl, rfl, rfl, rfl, fun hno => ?_⟩
  have hmap : chi.spec.templates.volumeClaimTemplates.map
      (fun t => (resolveVCTemplate t).2) = chi.spec.templates.volumeClaimTemplates := by
    have : ∀ t ∈ chi.spec.templates.volumeClaimTemplates,
        (resolveVCTemplate t).2 = t := by
      intro t ht
      unfold resolveVCTemplate
      rw [if_neg (hno t ht)]
    calc chi.spec.templates.volumeClaimTemplates.map (fun t => (resolveVCTemplate t).2)
        = chi.spec.templates.volumeClaimTemplates.map id :=
          List.map_congr_left this
      _ = chi.spec.templates.volumeClaimTemplates := List.map_id _
  unfold resolveInstallation
  rw [hmap]

/-- Witness for C4 (amended) at a concrete input. -/
theorem claim_C4_frame_witness :
    (CreateCHIObjects emptyCollaborators templChi emptyWalker).isSome = true ∧
    (resultChi (CreateCHIObjects emptyCollaborators templChi emptyWalker) =
        some (resolveInstallation templChi) ∧
      (resolveInstallation templChi).name = templChi.name ∧
      (resolveInstallation templChi).nspace = templChi.nspace ∧
      (resolveInstallation templChi).spec.clusters = templChi.spec.clusters ∧
      (resolveInstallation templChi).spec.templates.podTemplates =
        templChi.spec.templates.podTemplates ∧
      ((∀ t ∈ templChi.spec.templates.volumeClaimTemplates,
          t.persistentVolumeClaim.name ≠ useDefaultNamePlaceholder) →
        resolveInstallation templChi = templChi)) :=
  ⟨by decide, claim_C4_frame emptyCollaborators templChi emptyWalker (by decide)⟩

/-! ## Counting lemmas -/

theorem countP_key_eq_one {α : Type} {l : List (String × α)} {id : String}
    (hnd : (l.map Prod.fst).Nodup) (hid : id ∈ l.map Prod.fst) :
    l.countP (fun q => decide (q.1 = id)) = 1 := by
  induction l with
  | nil => simp at hid
  | cons q rest ih =>
    simp only [List.map_cons, List.nodup_cons] at hnd
    obtain ⟨hq, hrest⟩ := hnd
    rw [List.countP_cons]
    by_cases hqe : q.1 = id
    · subst hqe
      have hz : rest.countP (fun r => decide (r.1 = q.1)) = 0 := by
        apply List.countP_eq_zero.mpr
        intro r hr
        simp only [decide_eq_true_eq]
        intro he
        exact hq (he ▸ List.mem_map_of_mem Prod.fst hr)
      simp [hz]
    · have hid2 : id ∈ rest.map Prod.fst := by
        rw [List.map_cons] at hid
        rcases List.mem_cons.mp hid with h1 | h1
        · exact absurd h1.symm hqe
        · exact h1
      simp [hqe, ih hrest hid2]

theorem countP_proj {α γ : Type} (l : List α) (nm : α → γ) (q : γ → Bool) :
    l.countP (fun a => q (nm a)) = (l.map nm).countP q := by
  rw [List.countP_map]
  rfl

/-! ## Field characterization of built StatefulSets -/

theorem resolveVCTemplate_name (t : ChiVolumeClaimTemplate) :
    (resolveVCTemplate t).2.name = t.name := by
  unfold resolveVCTemplate
  split <;> rfl

theorem buildStatefulSet_fields
    (chi : ClickHouseInstallation) (cname : String) (cmounts : List VolumeMount)
    (vcIdx : String → Option vcTemplatesIndexData)
    (pIdx : String → Option podTemplatesIndexData)
    (ssDeps : List (String × ChiDeployment)) (p : String × String) (s : StatefulSet)
    (h : buildStatefulSet chi cname cmounts vcIdx pIdx ssDeps p = some s) :
    s.meta.name = CreateStatefulSetName p.1 ∧
    s.meta.nspace = chi.nspace ∧
    s.meta.labels = [(ChopGeneratedLabel, chi.name), (CHIGeneratedLabel, chi.name)] ∧
    s.spec.replicas = 1 ∧
    s.spec.serviceName = CreatePodServiceName p.1 ∧
    s.spec.selector.matchLabels = [(chDefaultAppLabel, CreateStatefulSetName p.1)] ∧
    s.spec.template.meta.labels =
      [(chDefaultAppLabel, CreateStatefulSetName p.1),
       (ChopGeneratedLabel, chi.name), (CHIGeneratedLabel, chi.name)] := by
  simp only [buildStatefulSet] at h
  split at h
  · simp at h
  · split at h
    · injection h with h2
      rw [← h2]
      exact ⟨rfl, rfl, rfl, rfl, rfl, rfl, rfl⟩
    · split at h
      · split at h
        · simp at h
        · injection h with h2
          rw [← h2]
          exact ⟨rfl, rfl, rfl, rfl, rfl, rfl, rfl⟩
      · injection h with h2
        rw [← h2]
        exact ⟨rfl, rfl, rfl, rfl, rfl, rfl, rfl⟩

/-! ## Keys of the shared config sections -/

theorem mem_keys_includeNonEmpty {m : List (String × String)} {k1 v k : String} :
    (∃ x, (k, x) ∈ includeNonEmpty m k1 v) ↔
      ((∃ x, (k, x) ∈ m) ∨ (k = k1 ∧ v ≠ "")) := by
  unfold includeNonEmpty
  split
  · simp [*]
  · rename_i hv
    simp only [List.mem_append, List.mem_singleton]
    constructor
    · rintro ⟨x, hx | hx⟩
      · exact Or.inl ⟨x, hx⟩
      · obtain ⟨hk, _⟩ := Prod.mk.inj hx
        exact Or.inr ⟨hk, hv⟩
    · rintro (⟨x, hx⟩ | ⟨hk, _⟩)
      · exact ⟨x, Or.inl hx⟩
      · subst hk
        exact ⟨v, Or.inr rfl⟩

/-! ## Claim C5 -/

/-- C5: the shared ConfigMap (the head of the emitted ConfigMap list) holds
the key for a domain's fixed filename if and only if that domain's generator
produced non-empty output for the spec. -/
theorem claim_C5_shared_config_minimality (c : Collaborators)
    (chi : ClickHouseInstallation) (w : WalkerOutput) (cm : ConfigMap)
    (hs : (CreateCHIObjects c chi w).isSome = true)
    (hcm : (resultConfigMaps (CreateCHIObjects c chi w)).head? = some cm) :
    ∀ d : ConfigDomain,
      domainFilename d ∈ cm.data.map Prod.fst ↔ generatorOutput c chi d ≠ "" := by
  rw [resultConfigMaps_of_isSome c chi w hs] at hcm
  simp only [createConfigMapObjects, List.head?_cons, Option.some.injEq] at hcm
  subst hcm
  intro d
  cases d <;>
    simp [createCommonConfigMap, compiledOptions, buildCommonConfigSections,
      generatorOutput, domainFilename, mem_keys_includeNonEmpty,
      filenameRemoteServersXML, filenameZookeeperXML, filenameUsersXML,
      filenameProfilesXML, filenameQuotasXML, filenameSettingsXML]

/-- Witness for C5 at a concrete input with a mix of empty and non-empty
generator outputs. -/
theorem claim_C5_shared_config_minimality_witness :
    (CreateCHIObjects mixedCollaborators testChi emptyWalker).isSome = true ∧
    (resultConfigMaps (CreateCHIObjects mixedCollaborators testChi emptyWalker)).head? =
      some (createCommonConfigMap testChi
        (compiledOptions mixedCollaborators testChi emptyWalker)) ∧
    ∀ d : ConfigDomain,
      domainFilename d ∈
          (createCommonConfigMap testChi
            (compiledOptions mixedCollaborators testChi emptyWalker)).data.map Prod.fst ↔
        generatorOutput mixedCollaborators testChi d ≠ "" :=
  ⟨by decide, by decide,
    claim_C5_shared_config_minimality mixedCollaborators testChi emptyWalker _
      (by decide) (by decide)⟩

theorem compiledOptions_index (c : Collaborators) (chi : ClickHouseInstallation)
    (w : WalkerOutput) :
    (compiledOptions c chi w).fullDeploymentIDToFingerprint =
      w.fullDeploymentIDToFingerprint := rfl

/-! ## Claim C1 -/

/-- C1: for every DeploymentID in the fingerprint index the output holds
exactly one StatefulSet, one private macros ConfigMap, and one per-replica
Service; the output always holds exactly one shared ConfigMap and exactly
one installation-wide Service; and an empty fingerprint index still
compiles successfully, to *exactly* the installation Service and the shared
ConfigMap with zero StatefulSets, zero macros ConfigMaps, zero per-replica
Services and an empty deployment-id slice. -/
theorem claim_C1_completeness (c : Collaborators) (chi : ClickHouseInstallation)
    (w : WalkerOutput)
    (hnd : (w.fullDeploymentIDToFingerprint.map (fun p => p.1)).Nodup) :
    (w.fullDeploymentIDToFingerprint = [] →
      CreateCHIObjects c chi w =
        some ({ services := [createChiService chi]
                configMaps := [createCommonConfigMap chi (compiledOptions c chi w)]
                statefulSets := [] },
              [], resolveInstallation chi)) ∧
    ((CreateCHIObjects c chi w).isSome = true →
      resultIDs (CreateCHIObjects c chi w) =
        some (w.fullDeploymentIDToFingerprint.map (fun p => p.1)) ∧
      (resultServices (CreateCHIObjects c chi w)).countP
          (fun s => decide (s.meta.name = CreateChiServiceName chi.name) &&
            decide (s.spec.type = "LoadBalancer")) = 1 ∧
      (resultConfigMaps (CreateCHIObjects c chi w)).countP
          (fun cm => decide (cm.meta.name = CreateConfigMapCommonName chi.name)) = 1 ∧
      (∀ id ∈ w.fullDeploymentIDToFingerprint.map (fun p => p.1),
        (resultServices (CreateCHIObjects c chi w)).countP
            (fun s => decide (s.meta.name = CreatePodServiceName id) &&
              decide (s.spec.type = "ClusterIP")) = 1 ∧
        (resultConfigMaps (CreateCHIObjects c chi w)).countP
            (fun cm => decide (cm.meta.name = CreateConfigMapMacrosName chi.name id)) = 1 ∧
        (resultStatefulSets (CreateCHIObjects c chi w)).countP
            (fun s => decide (s.meta.name = CreateStatefulSetName id)) = 1)) := by
  constructor
  · intro hempty
    rw [CreateCHIObjects_eq, hempty]
    simp [collectSome, createServiceObjects, createConfigMapObjects,
      compiledOptions_index, hempty]
  · intro hs
    refine ⟨resultIDs_of_isSome c chi w hs, ?_, ?_, ?_⟩
    · rw [resultServices_of_isSome c chi w hs]
      simp only [createServiceObjects, compiledOptions_index, List.countP_cons, List.countP_map]
      have h1 : ((fun s => decide (s.meta.name = CreateChiServiceName chi.name) &&
          decide (s.spec.type = "LoadBalancer")) (createChiService chi)) = true := by
        simp [createChiService]
      have h0 : w.fullDeploymentIDToFingerprint.countP
          ((fun s => decide (s.meta.name = CreateChiServiceName chi.name) &&
            decide (s.spec.type = "LoadBalancer")) ∘
            (fun p => createPodService chi p.1)) = 0 := by
        apply List.countP_eq_zero.mpr
        intro p hp
        simp [createPodService]
      rw [h0]
      simp [createChiService]
    · rw [resultConfigMaps_of_isSome c chi w hs]
      simp only [createConfigMapObjects, compiledOptions_index, List.countP_cons, List.countP_map]
      have h1 : ((fun cm => decide (cm.meta.name = CreateConfigMapCommonName chi.name))
          (createCommonConfigMap chi (compiledOptions c chi w))) = true := by
        simp [createCommonConfigMap]
      have h0 : w.fullDeploymentIDToFingerprint.countP
          ((fun cm => decide (cm.meta.name = CreateConfigMapCommonName chi.name)) ∘
            (fun p => createMacrosConfigMap c chi (compiledOptions c chi w) p.1)) = 0 := by
        apply List.countP_eq_zero.mpr
        intro p hp
        simp only [Function.comp, createMacrosConfigMap, decide_eq_true_eq]
        exact macrosName_ne_commonName chi.name p.1
      rw [h0]
      simp [createCommonConfigMap]
    · intro id hid
      refine ⟨?_, ?_, ?_⟩
      · rw [resultServices_of_isSome c chi w hs]
        simp only [createServiceObjects, compiledOptions_index, List.countP_cons, List.countP_map]
        have h1 : ((fun s => decide (s.meta.name = CreatePodServiceName id) &&
            decide (s.spec.type = "ClusterIP")) (createChiService chi)) = false := by
          simp [createChiService]
        have h0 : w.fullDeploymentIDToFingerprint.countP
            ((fun s => decide (s.meta.name = CreatePodServiceName id) &&
              decide (s.spec.type = "ClusterIP")) ∘
              (fun p => createPodService chi p.1)) =
            w.fullDeploymentIDToFingerprint.countP (fun q => decide (q.1 = id)) := by
          apply List.countP_congr
          intro q hq
          simp only [Function.comp, createPodService, Bool.and_eq_true, decide_eq_true_eq]
          constructor
          · rintro ⟨h2, _⟩
            exact CreatePodServiceName_inj h2
          · rintro h2
            exact ⟨by rw [h2], trivial⟩
        rw [h0, countP_key_eq_one hnd hid]
        simp [createChiService]
      · rw [resultConfigMaps_of_isSome c chi w hs]
        simp only [createConfigMapObjects, compiledOptions_index, List.countP_cons, List.countP_map]
        have h1 : ((fun cm => decide (cm.meta.name = CreateConfigMapMacrosName chi.name id))
            (createCommonConfigMap chi (compiledOptions c chi w))) = false := by
          simp only [createCommonConfigMap, decide_eq_false_iff_not]
          exact fun h2 => macrosName_ne_commonName chi.name id h2.symm
        have h0 : w.fullDeploymentIDToFingerprint.countP
            ((fun cm => decide (cm.meta.name = CreateConfigMapMacrosName chi.name id)) ∘
              (fun p => createMacrosConfigMap c chi (compiledOptions c chi w) p.1)) =
            w.fullDeploymentIDToFingerprint.countP (fun q => decide (q.1 = id)) := by
          apply List.countP_congr
          intro q hq
          simp only [Function.comp, createMacrosConfigMap, decide_eq_true_eq]
          constructor
          · exact fun h2 => CreateConfigMapMacrosName_inj h2
          · exact fun h2 => by rw [h2]
        rw [h0, countP_key_eq_one hnd hid]
        simp [createCommonConfigMap,
          Ne.symm (macrosName_ne_commonName chi.name id)]
      · have hcol : collectSome (w.fullDeploymentIDToFingerprint.map
            (buildStatefulSetFn c chi w)) =
            some (resultStatefulSets (CreateCHIObjects c chi w)) := by
          rw [resultStatefulSets_of_isSome c chi w hs]
          exact collectSome_map_some _
        have hnames : (resultStatefulSets (CreateCHIObjects c chi w)).map
            (fun s => s.meta.name) =
            w.fullDeploymentIDToFingerprint.map (fun p => CreateStatefulSetName p.1) := by
          refine collectSome_map_proj ?_ hcol
          intro p s h
          exact (buildStatefulSet_fields chi _ _ _ _ _ p s h).1
        rw [countP_proj (resultStatefulSets (CreateCHIObjects c chi w))
          (fun s => s.meta.name) (fun x => decide (x = CreateStatefulSetName id))]
        rw [hnames, List.countP_map]
        have h0 : w.fullDeploymentIDToFingerprint.countP
            ((fun x => decide (x = CreateStatefulSetName id)) ∘
              (fun p => CreateStatefulSetName p.1)) =
            w.fullDeploymentIDToFingerprint.countP (fun q => decide (q.1 = id)) := by
          apply List.countP_congr
          intro q hq
          simp only [Function.comp, decide_eq_true_eq]
          exact ⟨fun h2 => CreateStatefulSetName_inj h2, fun h2 => by rw [h2]⟩
        rw [h0, countP_key_eq_one hnd hid]

/-- Witness for C1 at concrete inputs: a two-deployment walker output and
the empty walker output. -/
theorem claim_C1_completeness_witness :
    ((twoDeployments.fullDeploymentIDToFingerprint.map (fun p => p.1)).Nodup ∧
      ((CreateCHIObjects mixedCollaborators testChi twoDeployments).isSome = true →
        resultIDs (CreateCHIObjects mixedCollaborators testChi twoDeployments) =
          some (twoDeployments.fullDeploymentIDToFingerprint.map (fun p => p.1)))) ∧
    (emptyWalker.fullDeploymentIDToFingerprint = [] →
      CreateCHIObjects mixedCollaborators testChi emptyWalker =
        some ({ services := [createChiService testChi]
                configMaps := [createCommonConfigMap testChi
                  (compiledOptions mixedCollaborators testChi emptyWalker)]
                statefulSets := [] },
              [], resolveInstallation testChi)) :=
  ⟨⟨by decide, fun h => (claim_C1_completeness mixedCollaborators testChi twoDeployments
      (by decide)).2 h |>.1⟩,
    (claim_C1_completeness mixedCollaborators testChi emptyWalker (by decide)).1⟩

theorem resultStatefulSets_get (c : Collaborators) (chi : ClickHouseInstallation)
    (w : WalkerOutput) (hs : (CreateCHIObjects c chi w).isSome = true) (k : Nat) :
    ((resultStatefulSets (CreateCHIObjects c chi w)).get? k).map some =
      (w.fullDeploymentIDToFingerprint.get? k).map (buildStatefulSetFn c chi w) := by
  have h := resultStatefulSets_of_isSome c chi w hs
  have h2 := congrArg (fun l => l.get? k) h
  simp only [List.get?_map] at h2
  exact h2.symm

theorem statefulSetAt (c : Collaborators) (chi : ClickHouseInstallation)
    (w : WalkerOutput) (hs : (CreateCHIObjects c chi w).isSome = true)
    (k : Nat) (id f : String)
    (hk : w.fullDeploymentIDToFingerprint.get? k = some (id, f)) :
    (resultStatefulSets (CreateCHIObjects c chi w)).get? k =
      buildStatefulSetFn c chi w (id, f) := by
  have h2 := resultStatefulSets_get c chi w hs k
  rw [hk] at h2
  cases hg : (resultStatefulSets (CreateCHIObjects c chi w)).get? k with
  | none => rw [hg] at h2; simp at h2
  | some s =>
    rw [hg] at h2
    have h3 : (some (some s) : Option (Option StatefulSet)) =
        some (buildStatefulSetFn c chi w (id, f)) := h2
    exact Option.some.inj h3

/-! ## Claim C6 -/

/-- C6 (refutation of the claim as stated): for the deployment below the
pod-template name is absent from the index, yet the synthesized default
container's volume mounts are *not* exactly the common+macros list - the
deployment's volume-claim template uses the default name, so the default
data mount is appended as well (creators.go lines 332-338). -/
theorem claim_C6_counterexample :
    ((resultStatefulSets (CreateCHIObjects mixedCollaborators templChi
          defaultPodWithClaim)).get? 0).map
        (fun s => s.spec.template.spec.containers.map (fun ct => ct.volumeMounts)) ≠
      some [currentVolumeMountsOf mixedCollaborators templChi "dep-a"] := by
  decide

/-- C6 (amended): for every deployment whose pod-template name misses the
pod TemplateIndex *and* whose volume-claim template is absent or does not
use the default name, the StatefulSet's pod spec holds exactly one
synthesized container with the fixed default image, the fixed three named
ports, and exactly the common config mounts followed by the macros mount
(when the volume-claim template uses the default name, the default data
mount is additionally appended, as claim C7 states). -/
theorem claim_C6_default_container (c : Collaborators)
    (chi : ClickHouseInstallation) (w : WalkerOutput) (k : Nat)
    (id f : String) (dep : ChiDeployment)
    (hs : (CreateCHIObjects c chi w).isSome = true)
    (hk : w.fullDeploymentIDToFingerprint.get? k = some (id, f))
    (hdep : w.ssDeployments.lookup f = some dep)
    (hpt : createPodTemplatesIndex (resolveInstallation chi) dep.podTemplate = none)
    (hvc : ((createVolumeClaimTemplatesIndex chi).1 dep.volumeClaimTemplate).all
      (fun v => !v.useDefaultName) = true) :
    ((resultStatefulSets (CreateCHIObjects c chi w)).get? k).map
        (fun s => s.spec.template.spec.containers) =
      some [createDefaultContainerTemplate (CreateStatefulSetName id)
        (currentVolumeMountsOf c chi id)] ∧
    (createDefaultContainerTemplate (CreateStatefulSetName id)
      (currentVolumeMountsOf c chi id)).image = chDefaultDockerImage ∧
    (createDefaultContainerTemplate (CreateStatefulSetName id)
      (currentVolumeMountsOf c chi id)).ports =
      [{ name := chDefaultRPCPortName, containerPort := chDefaultRPCPortNumber },
       { name := chDefaultInterServerPortName,
         containerPort := chDefaultInterServerPortNumber },
       { name := chDefaultRestPortName, containerPort := chDefaultRestPortNumber }] ∧
    (createDefaultContainerTemplate (CreateStatefulSetName id)
      (currentVolumeMountsOf c chi id)).volumeMounts =
      commonVolumeMountsOf (CreateConfigMapCommonName chi.name)
          (buildCommonConfigSections c chi) ++
        [macrosVolumeMount (CreateConfigMapMacrosName chi.name id)] := by
  have hpt2 : createPodTemplatesIndex (createVolumeClaimTemplatesIndex chi).2
      dep.podTemplate = none := by
    rw [createVolumeClaimTemplatesIndex_snd]
    exact hpt
  refine ⟨?_, rfl, rfl, rfl⟩
  rw [statefulSetAt c chi w hs k id f hk]
  cases hv : (createVolumeClaimTemplatesIndex chi).1 dep.volumeClaimTemplate with
  | none =>
    simp [buildStatefulSetFn, buildStatefulSet, hdep, hv, hpt2,
      podSpecForDeployment, currentVolumeMountsOf]
  | some v =>
    rw [hv] at hvc
    have hflag : v.useDefaultName = false := by simpa using hvc
    simp [buildStatefulSetFn, buildStatefulSet, hdep, hv, hflag, hpt2,
      podSpecForDeployment, currentVolumeMountsOf]

/-- Witness for C6 (amended) at a concrete input. -/
theorem claim_C6_default_container_witness :
    ((resultStatefulSets (CreateCHIObjects mixedCollaborators templChi
          defaultPodNoFlag)).get? 0).map
        (fun s => s.spec.template.spec.containers) =
      some [createDefaultContainerTemplate (CreateStatefulSetName "dep-a")
        (currentVolumeMountsOf mixedCollaborators templChi "dep-a")] :=
  (claim_C6_default_container mixedCollaborators templChi defaultPodNoFlag 0
    "dep-a" "fp1" { podTemplate := "", volumeClaimTemplate := "vct2" }
    (by decide) (by decide) (by decide) (by decide) (by decide)).1

/-! ## Claim C7 -/

theorem find_resolved_of_nodup :
    ∀ {l : List ChiVolumeClaimTemplate} {t : ChiVolumeClaimTemplate},
      (l.map (fun x => x.name)).Nodup → t ∈ l →
      ((l.map resolveVCTemplate).reverse.find? (fun p => p.2.name == t.name)) =
        some (resolveVCTemplate t) := by
  intro l
  induction l with
  | nil => intro t _ ht; cases ht
  | cons a rest ih =>
    intro t hnd ht
    rw [List.map_cons, List.reverse_cons, List.find?_append]
    simp only [List.map_cons, List.nodup_cons] at hnd
    obtain ⟨ha, hrest⟩ := hnd
    cases ht with
    | head =>
      have hnone : ((rest.map resolveVCTemplate).reverse.find?
          (fun p => p.2.name == a.name)) = none := by
        apply List.find?_eq_none.mpr
        intro x hx
        rw [List.mem_reverse] at hx
        obtain ⟨r, hr, rfl⟩ := List.mem_map.mp hx
        simp only [resolveVCTemplate_name, beq_iff_eq]
        intro hre
        exact ha (hre ▸ List.mem_map_of_mem (fun x => x.name) hr)
      rw [hnone]
      simp [List.find?, resolveVCTemplate_name]
    | tail _ ht2 =>
      rw [ih hrest ht2]
      rfl

theorem buildStatefulSet_vc_flag
    (chi : ClickHouseInstallation) (cname : String) (cmounts : List VolumeMount)
    (vcIdx : String → Option vcTemplatesIndexData)
    (pIdx : String → Option podTemplatesIndexData)
    (ssDeps : List (String × ChiDeployment)) (p : String × String)
    (dep : ChiDeployment) (v : vcTemplatesIndexData) (s : StatefulSet)
    (hdep : ssDeps.lookup p.2 = some dep)
    (hv : vcIdx dep.volumeClaimTemplate = some v)
    (hflag : v.useDefaultName = true)
    (h : buildStatefulSet chi cname cmounts vcIdx pIdx ssDeps p = some s) :
    s.spec.template.spec.containers =
      appendDataMountToFirst
        ((podSpecForDeployment pIdx (CreateStatefulSetName p.1)
            (cmounts ++ [macrosVolumeMount (CreateConfigMapMacrosName chi.name p.1)])
            dep.podTemplate).containers) ∧
    s.spec.volumeClaimTemplates = [v.persistentVolumeClaim] := by
  simp only [buildStatefulSet, hdep, hv, hflag, if_true] at h
  cases hcs : (podSpecForDeployment pIdx (CreateStatefulSetName p.1)
      (cmounts ++ [macrosVolumeMount (CreateConfigMapMacrosName chi.name p.1)])
      dep.podTemplate).containers with
  | nil => rw [hcs] at h; simp at h
  | cons c0 rest =>
    rw [hcs] at h
    injection h with h2
    rw [← h2]
    exact ⟨rfl, rfl⟩

/-- C7: a volume-claim template declared with the reserved placeholder name
resolves, in the TemplateIndex, to an entry whose claim name is the fixed
default data-volume name and whose `useDefaultName` flag is set; and every
deployment selecting such a template gets the default data mount (fixed
name, fixed data path) appended to the *first* container only of its
StatefulSet's pod spec. -/
theorem claim_C7_default_claim_name (c : Collaborators)
    (chi : ClickHouseInstallation) (w : WalkerOutput) (k : Nat)
    (id f : String) (dep : ChiDeployment) (t : ChiVolumeClaimTemplate)
    (hnd : (chi.spec.templates.volumeClaimTemplates.map (fun x => x.name)).Nodup)
    (ht : t ∈ chi.spec.templates.volumeClaimTemplates)
    (hph : t.persistentVolumeClaim.name = useDefaultNamePlaceholder)
    (hs : (CreateCHIObjects c chi w).isSome = true)
    (hk : w.fullDeploymentIDToFingerprint.get? k = some (id, f))
    (hdep : w.ssDeployments.lookup f = some dep)
    (hsel : dep.volumeClaimTemplate = t.name) :
    (createVolumeClaimTemplatesIndex chi).1 t.name =
      some { useDefaultName := true
             persistentVolumeClaim :=
               { t.persistentVolumeClaim with name := chDefaultVolumeMountNameData } } ∧
    ((resultStatefulSets (CreateCHIObjects c chi w)).get? k).map
        (fun s => s.spec.template.spec.containers) =
      some (appendDataMountToFirst
        ((podSpecForDeployment (createPodTemplatesIndex (resolveInstallation chi))
            (CreateStatefulSetName id) (currentVolumeMountsOf c chi id)
            dep.podTemplate).containers)) ∧
    defaultDataVolumeMount =
      { name := chDefaultVolumeMountNameData, mountPath := fullPathClickHouseData,
        subPath := "" } := by
  have hA : (createVolumeClaimTemplatesIndex chi).1 t.name =
      some { useDefaultName := true
             persistentVolumeClaim :=
               { t.persistentVolumeClaim with name := chDefaultVolumeMountNameData } } := by
    show ((chi.spec.templates.volumeClaimTemplates.map resolveVCTemplate).reverse.find?
        (fun p => p.2.name == t.name)).map (fun p => p.1) = _
    rw [find_resolved_of_nodup hnd ht]
    unfold resolveVCTemplate
    rw [if_pos hph]
    rfl
  refine ⟨hA, ?_, rfl⟩
  have hAt := statefulSetAt c chi w hs k id f hk
  have hlen : w.fullDeploymentIDToFingerprint.length =
      (resultStatefulSets (CreateCHIObjects c chi w)).length := by
    have h3 := congrArg List.length (resultStatefulSets_of_isSome c chi w hs)
    simpa using h3
  have hk2 : k < w.fullDeploymentIDToFingerprint.length :=
    (List.get?_eq_some.mp hk).1
  have hk3 : k < (resultStatefulSets (CreateCHIObjects c chi w)).length := hlen ▸ hk2
  have hgs : (resultStatefulSets (CreateCHIObjects c chi w)).get? k =
      some ((resultStatefulSets (CreateCHIObjects c chi w)).get ⟨k, hk3⟩) :=
    List.get?_eq_get hk3
  have hfn : buildStatefulSetFn c chi w (id, f) =
      some ((resultStatefulSets (CreateCHIObjects c chi w)).get ⟨k, hk3⟩) := by
    rw [← hAt]
    exact hgs
  have hv : (createVolumeClaimTemplatesIndex chi).1 dep.volumeClaimTemplate =
      some { useDefaultName := true
             persistentVolumeClaim :=
               { t.persistentVolumeClaim with name := chDefaultVolumeMountNameData } } := by
    rw [hsel]
    exact hA
  have hB := buildStatefulSet_vc_flag chi (CreateConfigMapCommonName chi.name)
    (commonVolumeMountsOf (CreateConfigMapCommonName chi.name)
      (buildCommonConfigSections c chi))
    (createVolumeClaimTemplatesIndex chi).1
    (createPodTemplatesIndex (createVolumeClaimTemplatesIndex chi).2)
    w.ssDeployments (id, f) dep _
    ((resultStatefulSets (CreateCHIObjects c chi w)).get ⟨k, hk3⟩)
    hdep hv rfl hfn
  rw [hgs]
  simp only [Option.map]
  rw [hB.1]
  rw [createVolumeClaimTemplatesIndex_snd]
  rfl

/-- Witness for C7 at a concrete input: `templChi`, whose first
volume-claim template is placeholder-named, selected by a deployment whose
pod template misses the index. -/
theorem claim_C7_default_claim_name_witness :
    (createVolumeClaimTemplatesIndex templChi).1 "vct1" =
      some { useDefaultName := true
             persistentVolumeClaim :=
               { name := chDefaultVolumeMountNameData, payload := "5Gi" } } ∧
    ((resultStatefulSets (CreateCHIObjects mixedCollaborators templChi
          defaultPodWithClaim)).get? 0).map
        (fun s => s.spec.template.spec.containers) =
      some (appendDataMountToFirst
        ((podSpecForDeployment (createPodTemplatesIndex (resolveInstallation templChi))
            (CreateStatefulSetName "dep-a")
            (currentVolumeMountsOf mixedCollaborators templChi "dep-a")
            "").containers)) ∧
    defaultDataVolumeMount =
      { name := chDefaultVolumeMountNameData, mountPath := fullPathClickHouseData,
        subPath := "" } :=
  claim_C7_default_claim_name mixedCollaborators templChi defaultPodWithClaim 0
    "dep-a" "fp1" { podTemplate := "", volumeClaimTemplate := "vct1" }
    { name := "vct1"
      persistentVolumeClaim := { name := useDefaultNamePlaceholder, payload := "5Gi" } }
    (by decide) (by decide) (by decide) (by decide) (by decide) (by decide) (by decide)

/-! ## Claim C8 -/

/-- C8 (refutation of the claim as stated): for a deployment whose pod
template is found, the generated pod spec's volumes are *not* equal to the
template's declared volumes - the two ConfigMap-sourced volumes (shared
config and macros) are appended as well (creators.go lines 314-323). -/
theorem claim_C8_counterexample :
    ((resultStatefulSets (CreateCHIObjects mixedCollaborators templChi
          templDeployment)).get? 0).map
        (fun s => s.spec.template.spec.volumes) ≠
      some [{ name := "v1", configMapName := "" }] := by
  decide

/-- C8 (amended): for every deployment whose pod-template name is found in
the pod TemplateIndex (and whose volume-claim template is absent or does not
use the default name - otherwise the first container additionally gains the
default data mount, claim C7), the generated pod spec's volumes are the
template's declared volumes followed by the two ConfigMap-sourced pod
volumes, every container is the template's container with the full ordered
common+macros mount list appended to its declared mounts, and the k-th
emitted StatefulSet equals the standalone build of that deployment from the
immutable shared inputs, so building one deployment cannot disturb
another's template data. -/
theorem claim_C8_pod_template_copy (c : Collaborators)
    (chi : ClickHouseInstallation) (w : WalkerOutput) (k : Nat)
    (id f : String) (dep : ChiDeployment) (ptd : podTemplatesIndexData)
    (hs : (CreateCHIObjects c chi w).isSome = true)
    (hk : w.fullDeploymentIDToFingerprint.get? k = some (id, f))
    (hdep : w.ssDeployments.lookup f = some dep)
    (hpt : createPodTemplatesIndex (resolveInstallation chi) dep.podTemplate = some ptd)
    (hvc : ((createVolumeClaimTemplatesIndex chi).1 dep.volumeClaimTemplate).all
      (fun v => !v.useDefaultName) = true) :
    ((resultStatefulSets (CreateCHIObjects c chi w)).get? k).map
        (fun s => s.spec.template.spec.volumes) =
      some (ptd.volumes ++
        [createVolume (CreateConfigMapCommonName chi.name),
         createVolume (CreateConfigMapMacrosName chi.name id)]) ∧
    ((resultStatefulSets (CreateCHIObjects c chi w)).get? k).map
        (fun s => s.spec.template.spec.containers) =
      some (ptd.containers.map (fun ct =>
        { ct with volumeMounts := ct.volumeMounts ++ currentVolumeMountsOf c chi id })) ∧
    (resultStatefulSets (CreateCHIObjects c chi w)).get? k =
      buildStatefulSetFn c chi w (id, f) := by
  have hpt2 : createPodTemplatesIndex (createVolumeClaimTemplatesIndex chi).2
      dep.podTemplate = some ptd := by
    rw [createVolumeClaimTemplatesIndex_snd]
    exact hpt
  have hAt := statefulSetAt c chi w hs k id f hk
  refine ⟨?_, ?_, hAt⟩ <;> rw [hAt] <;>
    cases hv : (createVolumeClaimTemplatesIndex chi).1 dep.volumeClaimTemplate with
  | none =>
    simp [buildStatefulSetFn, buildStatefulSet, hdep, hv, hpt2,
      podSpecForDeployment, currentVolumeMountsOf]
  | some v =>
    rw [hv] at hvc
    have hflag : v.useDefaultName = false := by simpa using hvc
    simp [buildStatefulSetFn, buildStatefulSet, hdep, hv, hflag, hpt2,
      podSpecForDeployment, currentVolumeMountsOf]

/-- Witness for C8 (amended) at a concrete input. -/
theorem claim_C8_pod_template_copy_witness :
    ((resultStatefulSets (CreateCHIObjects mixedCollaborators templChi
          templPodNoFlag)).get? 0).map
        (fun s => s.spec.template.spec.volumes) =
      some ([{ name := "v1" }] ++
        [createVolume (CreateConfigMapCommonName templChi.name),
         createVolume (CreateConfigMapMacrosName templChi.name "dep-a")]) :=
  (claim_C8_pod_template_copy mixedCollaborators templChi templPodNoFlag 0
    "dep-a" "fp1" { podTemplate := "pt1", volumeClaimTemplate := "vct2" }
    { containers :=
        [{ name := "app1", image := "img1"
           volumeMounts := [{ name := "v1", mountPath := "/d1" }] },
         { name := "app2", image := "img2" }]
      volumes := [{ name := "v1" }] }
    (by decide) (by decide) (by decide) (by decide) (by decide)).1

/-! ## Claim C10 -/

/-- C10: the three objects of one deployment are mutually linked - the
StatefulSet's serviceName is that deployment's per-replica Service name,
the per-replica Service's selector is exactly the (default app label,
StatefulSet name) pair, and the StatefulSet's pod-template labels contain
that same pair plus the installation label selected by the
installation-wide Service. -/
theorem claim_C10_object_linking (c : Collaborators)
    (chi : ClickHouseInstallation) (w : WalkerOutput) (k : Nat) (id f : String)
    (hs : (CreateCHIObjects c chi w).isSome = true)
    (hk : w.fullDeploymentIDToFingerprint.get? k = some (id, f)) :
    (resultServices (CreateCHIObjects c chi w)).get? 0 =
      some (createChiService chi) ∧
    (createChiService chi).spec.selector = [(CHIGeneratedLabel, chi.name)] ∧
    (resultServices (CreateCHIObjects c chi w)).get? (k + 1) =
      some (createPodService chi id) ∧
    (createPodService chi id).meta.name = CreatePodServiceName id ∧
    (createPodService chi id).spec.selector =
      [(chDefaultAppLabel, CreateStatefulSetName id)] ∧
    ((resultStatefulSets (CreateCHIObjects c chi w)).get? k).map
        (fun s => s.spec.serviceName) = some (CreatePodServiceName id) ∧
    ((resultStatefulSets (CreateCHIObjects c chi w)).get? k).map
        (fun s => s.spec.selector.matchLabels) =
      some [(chDefaultAppLabel, CreateStatefulSetName id)] ∧
    ((resultStatefulSets (CreateCHIObjects c chi w)).get? k).map
        (fun s => s.spec.template.meta.labels) =
      some [(chDefaultAppLabel, CreateStatefulSetName id),
        (ChopGeneratedLabel, chi.name), (CHIGeneratedLabel, chi.name)] := by
  have hsvc := resultServices_of_isSome c chi w hs
  have hAt := statefulSetAt c chi w hs k id f hk
  have hlen : w.fullDeploymentIDToFingerprint.length =
      (resultStatefulSets (CreateCHIObjects c chi w)).length := by
    have h3 := congrArg List.length (resultStatefulSets_of_isSome c chi w hs)
    simpa using h3
  have hk3 : k < (resultStatefulSets (CreateCHIObjects c chi w)).length :=
    hlen ▸ (List.get?_eq_some.mp hk).1
  have hgs : (resultStatefulSets (CreateCHIObjects c chi w)).get? k =
      some ((resultStatefulSets (CreateCHIObjects c chi w)).get ⟨k, hk3⟩) :=
    List.get?_eq_get hk3
  have hfn0 : buildStatefulSetFn c chi w (id, f) =
      some ((resultStatefulSets (CreateCHIObjects c chi w)).get ⟨k, hk3⟩) := by
    rw [← hAt]
    exact hgs
  have hfn : buildStatefulSet chi (CreateConfigMapCommonName chi.name)
      (commonVolumeMountsOf (CreateConfigMapCommonName chi.name)
        (buildCommonConfigSections c chi))
      (createVolumeClaimTemplatesIndex chi).1
      (createPodTemplatesIndex (createVolumeClaimTemplatesIndex chi).2)
      w.ssDeployments (id, f) =
      some ((resultStatefulSets (CreateCHIObjects c chi w)).get ⟨k, hk3⟩) := hfn0
  have hf := buildStatefulSet_fields chi _ _ _ _ _ (id, f) _ hfn
  refine ⟨?_, rfl, ?_, rfl, rfl, ?_, ?_, ?_⟩
  · rw [hsvc]
    rfl
  · rw [hsvc]
    have e1 : (createServiceObjects chi (compiledOptions c chi w)).get? (k + 1) =
        (w.fullDeploymentIDToFingerprint.map
          (fun p => createPodService chi p.1)).get? k := rfl
    rw [e1, List.get?_map, hk]
    rfl
  · rw [hgs]
    simp only [Option.map]
    rw [hf.2.2.2.2.1]
  · rw [hgs]
    simp only [Option.map]
    rw [hf.2.2.2.2.2.1]
  · rw [hgs]
    simp only [Option.map]
    rw [hf.2.2.2.2.2.2]

/-- Witness for C10 at a concrete input. -/
theorem claim_C10_object_linking_witness :
    (resultServices (CreateCHIObjects mixedCollaborators testChi
        twoDeployments)).get? 0 = some (createChiService testChi) ∧
    (createChiService testChi).spec.selector = [(CHIGeneratedLabel, testChi.name)] ∧
    (resultServices (CreateCHIObjects mixedCollaborators testChi
        twoDeployments)).get? 2 = some (createPodService testChi "dep-b") ∧
    (createPodService testChi "dep-b").meta.name = CreatePodServiceName "dep-b" ∧
    (createPodService testChi "dep-b").spec.selector =
      [(chDefaultAppLabel, CreateStatefulSetName "dep-b")] ∧
    ((resultStatefulSets (CreateCHIObjects mixedCollaborators testChi
          twoDeployments)).get? 1).map (fun s => s.spec.serviceName) =
      some (CreatePodServiceName "dep-b") ∧
    ((resultStatefulSets (CreateCHIObjects mixedCollaborators testChi
          twoDeployments)).get? 1).map (fun s => s.spec.selector.matchLabels) =
      some [(chDefaultAppLabel, CreateStatefulSetName "dep-b")] ∧
    ((resultStatefulSets (CreateCHIObjects mixedCollaborators testChi
          twoDeployments)).get? 1).map (fun s => s.spec.template.meta.labels) =
      some [(chDefaultAppLabel, CreateStatefulSetName "dep-b"),
        (ChopGeneratedLabel, testChi.name), (CHIGeneratedLabel, testChi.name)] :=
  claim_C10_object_linking mixedCollaborators testChi twoDeployments 1 "dep-b" "fpb"
    (by decide) (by decide)
